import Mathlib

/-!
Shallow embedding of the job-lifecycle orchestrator of the Podcast-Generator
repository: `backend/app/services/job_queue.py` (class `JobQueue`) and
`backend/app/services/podcast_generator.py` (class `PodcastGenerator`,
worker `_generate_podcast_worker` and `_cleanup_files`), together with the
parts of `backend/app/models/podcast.py` they use.

Modelling conventions:
- `datetime` values are abstract `Int` timestamps passed in as `now`.
- Python `float` percents are `Nat` (every call site passes an integer
  literal); `int(percent / 20)` is `Nat` division.
- The jobs dict is an association list `List (String × Job)` with unique keys
  (Python dict semantics); the active-task dict `running_jobs` is modelled by
  its key set, a `List String`, since the task objects themselves carry no
  state the claims mention.
- `async` collaborator calls are oracles: each call either returns a value,
  raises an ordinary exception (`PyErr.exc msg`, caught by `except
  Exception`) or delivers `asyncio.CancelledError` (`PyErr.cancelled`, which
  `except Exception` does NOT catch, as in Python >= 3.8 where
  CancelledError derives from BaseException).
- The file system is the set of paths present, a `List String`; `os.remove`
  raising on path `p` is modelled by a fault oracle `fault p = true`.
- The per-job progress callback is not modelled: `_update_job_progress`
  wraps its invocation in try/except, so callback failures never change job
  state.
-/

namespace PodcastGen

/-- Job states (`job_queue.py`, class `JobState`). -/

inductive JobState where
  | pending
  | running
  | completed
  | failed
  | cancelled
deriving DecidableEq, Repr

/-- The list `[COMPLETED, FAILED, CANCELLED]` used by `_cleanup_old_jobs`
and named "terminal" by the spec. -/

def JobState.isTerminal : JobState → Bool
  | .completed => true
  | .failed => true
  | .cancelled => true
  | _ => false

/-- Model of `models/podcast.py::Source` (relevance_score elided: no claim
mentions it and it is a float). -/

structure Source where
  url : String
  title : String
  domain : String
  content_length : Nat
deriving DecidableEq, Repr

/-- Model of `models/podcast.py::ProgressUpdate`. -/

structure ProgressUpdate where
  stage : Nat
  message : String
  percent : Nat
  log : List String
  estimated_remaining : Option Nat := none
deriving DecidableEq, Repr

/-- Model of `models/podcast.py::PodcastMetrics` (float fields as Int). -/

structure PodcastMetrics where
  sources_used : Nat
  sources : List Source
  duration_seconds : Int
  word_count : Nat
  lufs : Int
  tts_seconds : Int
  processing_seconds : Int
  audio_quality : String
deriving DecidableEq, Repr

/-- Model of `models/podcast.py::PodcastResult`. -/

structure PodcastResult where
  status : String
  job_id : String
  title : Option String := none
  mp3_url : Option String := none
  notes_url : Option String := none
  script_url : Option String := none
  metrics : Option PodcastMetrics := none
  error : Option String := none
  created_at : Int := 0
  completed_at : Option Int := none
deriving DecidableEq, Repr

/-- Model of `job_queue.py::Job` (the dataclass), minus the
progress_callback (see file header). -/

structure Job where
  job_id : String
  status : JobState
  topic : String
  description : String
  tone : String
  target_length : Nat
  progress : Option ProgressUpdate := none
  result : Option PodcastResult := none
  error : Option String := none
  created_at : Int
  updated_at : Int
  started_at : Option Int := none
  completed_at : Option Int := none
deriving DecidableEq, Repr

/-- Model of the `JobQueue` instance state: `self.jobs` and
`self.running_jobs` (the latter by its key set). -/

structure JobQueue where
  jobs : List (String × Job)
  running_jobs : List String
deriving DecidableEq, Repr

/-- Dictionary lookup `self.jobs.get(job_id)` / `self.jobs[job_id]`. -/

def getJob (q : JobQueue) (jobId : String) : Option Job :=
  (q.jobs.find? (fun p => p.1 == jobId)).map (fun p => p.2)

/-- Mutation of the record held under `jobId` (Python mutates the stored
object in place; keys are unique, so replacing every matching value is the
same map). -/

def setJob (q : JobQueue) (jobId : String) (j : Job) : JobQueue :=
  { q with jobs := q.jobs.map (fun p => if p.1 == jobId then (p.1, j) else p) }

/-- Dictionary deletion `del self.jobs[job_id]` (unique keys, so filtering
all matches is the same). -/

def delJob (q : JobQueue) (jobId : String) : JobQueue :=
  { q with jobs := q.jobs.filter (fun p => p.1 != jobId) }

/-- Membership test `job_id in self.running_jobs`. -/

def rjContains (q : JobQueue) (jobId : String) : Bool :=
  q.running_jobs.contains jobId

/-- Dict assignment `self.running_jobs[job_id] = task`, on the key set. -/

def rjAdd (q : JobQueue) (jobId : String) : JobQueue :=
  { q with running_jobs :=
      if q.running_jobs.contains jobId then q.running_jobs
      else jobId :: q.running_jobs }

/-- Deletion `del self.running_jobs[job_id]`, on the key set. -/

def rjDel (q : JobQueue) (jobId : String) : JobQueue :=
  { q with running_jobs := q.running_jobs.filter (fun i => i != jobId) }

/-- Python `x or dflt` on an Optional[str]: None and the empty string are
falsy. Used for `result.error or "Podcast generation failed"`. -/

def pyOrStr (x : Option String) (dflt : String) : String :=
  match x with
  | none => dflt
  | some s => if s = "" then dflt else s

/-- The ProgressUpdate built by `JobQueue._update_job_progress`:
stage = int(percent / 20), log = log_entries or [message] (Python `or`:
an empty list also falls back to [message]). -/

def mkProgress (percent : Nat) (message : String)
    (log_entries : Option (List String)) : ProgressUpdate :=
  { stage := percent / 20
    message := message
    percent := percent
    log :=
      match log_entries with
      | none => [message]
      | some l => if l.isEmpty then [message] else l }

/-- Model of `JobQueue._update_job_progress`: a no-op when the id is
unknown, otherwise stores the snapshot and bumps updated_at. -/

def update_job_progress (q : JobQueue) (jobId : String) (percent : Nat)
    (message : String) (log_entries : Option (List String)) (now : Int) :
    JobQueue :=
  match getJob q jobId with
  | none => q
  | some job =>
      setJob q jobId
        { job with progress := some (mkProgress percent message log_entries)
                   updated_at := now }

/-- Model of `JobQueue.start_job`: fails when the id is unknown or the job
is not PENDING; otherwise marks it RUNNING, stamps started_at/updated_at and
registers the spawned task under the id. -/

def start_job (q : JobQueue) (jobId : String) (now : Int) : Bool × JobQueue :=
  match getJob q jobId with
  | none => (false, q)
  | some job =>
      if job.status ≠ JobState.pending then (false, q)
      else
        let job1 := { job with status := JobState.running
                               started_at := some now
                               updated_at := now }
        (true, rjAdd (setJob q jobId job1) jobId)

/-- Model of `JobQueue.cancel_job`: fails when the id is unknown or the job
is not PENDING/RUNNING; otherwise cancels and unregisters the active task
if one exists, then marks the job CANCELLED. -/

def cancel_job (q : JobQueue) (jobId : String) (now : Int) : Bool × JobQueue :=
  match getJob q jobId with
  | none => (false, q)
  | some job =>
      if job.status = JobState.pending ∨ job.status = JobState.running then
        let q1 := if rjContains q jobId then rjDel q jobId else q
        (true, setJob q1 jobId
          { job with status := JobState.cancelled, updated_at := now })
      else (false, q)

/-- Model of `JobQueue.remove_job`: first cancels the job if it has an
active task, then deletes the record if present. -/

def remove_job (q : JobQueue) (jobId : String) (now : Int) : Bool × JobQueue :=
  let q1 := if rjContains q jobId then (cancel_job q jobId now).2 else q
  match getJob q1 jobId with
  | none => (false, q1)
  | some _ => (true, delJob q1 jobId)

/-- One sweep iteration of `JobQueue._cleanup_old_jobs`: collect the ids of
jobs whose status is in [COMPLETED, FAILED, CANCELLED] and whose updated_at
is older than the cutoff (`utcnow() - 24 hours`, passed here precomputed),
then remove each via `remove_job`. -/

def cleanup_sweep (q : JobQueue) (cutoff : Int) (now : Int) : JobQueue :=
  let jobs_to_remove :=
    (q.jobs.filter
      (fun p => p.2.status.isTerminal && decide (p.2.updated_at < cutoff))).map
      (fun p => p.1)
  jobs_to_remove.foldl (fun acc jobId => (remove_job acc jobId now).2) q

/-- An exception delivered at an await point: an ordinary exception (caught
by `except Exception`) or `asyncio.CancelledError` (not caught by it). -/

inductive PyErr where
  | exc (msg : String)
  | cancelled
deriving DecidableEq, Repr

/-- The script dict returned by the LLM collaborator
(`generate_script` / `generate_script_from_text`). -/

structure ScriptResult where
  script : String
  word_count : Nat
deriving DecidableEq, Repr

/-- The dict returned by the TTS collaborator (`generate_speech`). -/

structure TTSResult where
  processing_time : Int
deriving DecidableEq, Repr

/-- The dict returned by the audio collaborator (`process_audio`). -/

structure AudioResult where
  duration_seconds : Int
deriving DecidableEq, Repr

/-- One entry of the list returned by
`ContentExtractor.extract_content_from_sources`. -/

structure ExtractedContent where
  text : String
  word_count : Nat
deriving DecidableEq, Repr

/-- Oracles for the external collaborator calls made by
`_generate_podcast_worker`, in source order. Each either returns, raises,
or delivers CancelledError at that await point. -/

structure Collaborators where
  get_diverse_sources : Except PyErr (List Source)
  extract_content_from_sources : List Source → Except PyErr (List ExtractedContent)
  generate_script_from_text : String → Except PyErr ScriptResult
  generate_script : List ExtractedContent → Except PyErr ScriptResult
  generate_speech : String → Except PyErr TTSResult
  process_audio : Except PyErr AudioResult

/-- Path `static/scripts/script_{job_id}.txt`. -/

def scriptPath (jobId : String) : String :=
  "static/scripts/script_" ++ jobId ++ ".txt"

/-- Path `static/podcasts/speech_{job_id}.mp3`. -/

def speechPath (jobId : String) : String :=
  "static/podcasts/speech_" ++ jobId ++ ".mp3"

/-- Path `static/podcasts/podcast_{job_id}.mp3`. -/

def finalPath (jobId : String) : String :=
  "static/podcasts/podcast_" ++ jobId ++ ".mp3"

/-- Path `static/notes/notes_{job_id}.md`. -/

def notesPath (jobId : String) : String :=
  "static/notes/notes_" ++ jobId ++ ".md"

/-- The `files_to_remove` list of `PodcastGenerator._cleanup_files`, in
source order. -/

def files_to_remove (jobId : String) : List String :=
  [speechPath jobId, finalPath jobId, notesPath jobId, scriptPath jobId]

/-- File creation: the path becomes present (overwrite keeps membership). -/

def fsWrite (fs : List String) (p : String) : List String :=
  if fs.contains p then fs else p :: fs

/-- Loop body of `_cleanup_files`: `if os.path.exists(p): os.remove(p)` for
each path; `os.remove` raising on p (`fault p`) aborts the loop, and the
exception is swallowed by the surrounding try/except, so the function
always returns the file system reached so far. -/

def cleanup_files_loop (fault : String → Bool) :
    List String → List String → List String
  | [], fs => fs
  | p :: ps, fs =>
      if fs.contains p then
        if fault p then fs
        else cleanup_files_loop fault ps (fs.filter (fun x => x != p))
      else cleanup_files_loop fault ps fs

/-- Model of `PodcastGenerator._cleanup_files`: best-effort removal of the
four job-scoped artifact paths; never raises. -/

def cleanup_files (fault : String → Bool) (jobId : String)
    (fs : List String) : List String :=
  cleanup_files_loop fault (files_to_remove jobId) fs

/-- Model of `AudioProcessor.cleanup_temp_files`: per-file try/except, so a
faulty removal skips only that file and the loop continues; never raises. -/

def cleanup_temp_files (fault : String → Bool) (temp_files : List String)
    (fs : List String) : List String :=
  temp_files.foldl
    (fun acc p =>
      if acc.contains p then
        if fault p then acc else acc.filter (fun x => x != p)
      else acc) fs

/-- The synthetic fallback content built when no web sources are found
(`_generate_podcast_worker`, fallback branch). The Python triple-quoted
string's indentation is elided; the conditional on the (possibly empty)
description is kept. -/

def fallback_content (topic description : String) : String :=
  "Topic: " ++ topic ++ "\n\n" ++
  "This is a generated podcast about " ++ topic ++
  ". While we could not find specific web sources\n" ++
  "for this topic, here is some general information and discussion points:\n\n" ++
  (if description ≠ "" then description
   else "An exploration of " ++ topic ++
     ", covering its key aspects, significance, and relevance.") ++
  "\n\nKey Discussion Points:\n" ++
  "- Background and context of " ++ topic ++ "\n" ++
  "- Why " ++ topic ++ " is important and relevant today\n" ++
  "- Different perspectives and viewpoints on " ++ topic ++ "\n" ++
  "- Future implications and developments related to " ++ topic ++ "\n\n" ++
  "This podcast aims to provide an informative and engaging discussion about " ++
  topic ++ ",\neven without access to current web sources."

/-- Combined state threaded through a run: the job queue, the file system,
and a ghost trace of the (percent, message) progress emissions made for the
job under consideration, in order. -/

structure WorldState where
  q : JobQueue
  fs : List String
  trace : List (Nat × String)
deriving Repr

/-- A progress emission `await job_queue._update_job_progress(...)`: updates
the queue and appends to the ghost trace. -/

def emitW (s : WorldState) (jobId : String) (percent : Nat)
    (message : String) (now : Int) : WorldState :=
  { s with q := update_job_progress s.q jobId percent message none now
           trace := s.trace ++ [(percent, message)] }

/-- The `except Exception` branch of `_generate_podcast_worker` applied to
an exception raised at an await point: CancelledError is not an Exception
and propagates with no cleanup; an ordinary exception triggers
`_cleanup_files` then `cleanup_temp_files` and an error-status result. -/

def worker_on_err (fault : String → Bool) (jobId : String) (e : PyErr)
    (start_time : Int) (temp_files : List String) (s : WorldState) :
    Except PyErr PodcastResult × WorldState :=
  match e with
  | .cancelled => (Except.error PyErr.cancelled, s)
  | .exc msg =>
      let fs1 := cleanup_files fault jobId s.fs
      let fs2 := cleanup_temp_files fault temp_files fs1
      (Except.ok { status := "error", job_id := jobId, error := some msg,
                   created_at := start_time },
       { s with fs := fs2 })

/-- Stages 3-6 of `_generate_podcast_worker` (script generation onward),
shared by the web-sources path and the fallback path: the pipeline is
identical from here on, only the content argument (extracted list vs
fallback string) differs. Collaborator output files (speech, processed
audio) are added to the file system when the call begins, since a failing
call may leave a partially written file. -/

def worker_from_script (c : Collaborators) (fault : String → Bool)
    (jobId : String) (job : Job) (sources : List Source)
    (content : String ⊕ List ExtractedContent) (s : WorldState)
    (start_time now : Int) : Except PyErr PodcastResult × WorldState :=
  let content_description :=
    match content with
    | Sum.inl _ => "fallback content"
    | Sum.inr l => toString l.length ++ " sources"
  let s := emitW s jobId 35 ("Extracted content from " ++ content_description) now
  let s := emitW s jobId 50 "Generating podcast script using AI..." now
  let scriptRes :=
    match content with
    | Sum.inl txt => c.generate_script_from_text txt
    | Sum.inr ex => c.generate_script ex
  match scriptRes with
  | .error e => worker_on_err fault jobId e start_time [] s
  | .ok script_result =>
      let s := emitW s jobId 65 "Script generated successfully" now
      let s := emitW s jobId 70 "Converting script to speech..." now
      let s := { s with fs := fsWrite s.fs (scriptPath jobId) }
      let temp_files := [speechPath jobId]
      let s := { s with fs := fsWrite s.fs (speechPath jobId) }
      match c.generate_speech script_result.script with
      | .error e => worker_on_err fault jobId e start_time temp_files s
      | .ok tts_result =>
          let s := emitW s jobId 80 "Speech generation completed" now
          let s := emitW s jobId 85 "Processing and enhancing audio..." now
          let s := { s with fs := fsWrite s.fs (finalPath jobId) }
          match c.process_audio with
          | .error e => worker_on_err fault jobId e start_time temp_files s
          | .ok audio_result =>
              let s := emitW s jobId 95 "Audio processing completed" now
              let s := emitW s jobId 98 "Generating show notes..." now
              let s := { s with fs := fsWrite s.fs (notesPath jobId) }
              let s := emitW s jobId 100 "Podcast generation completed!" now
              let sources_used :=
                match content with
                | Sum.inl _ => 0
                | Sum.inr ex => ex.length
              let sources_list :=
                match content with
                | Sum.inl _ => ([] : List Source)
                | Sum.inr _ => sources
              let metrics : PodcastMetrics :=
                { sources_used := sources_used
                  sources := sources_list
                  duration_seconds := audio_result.duration_seconds
                  word_count := script_result.word_count
                  lufs := -16    -- settings.target_lufs default
                  tts_seconds := tts_result.processing_time
                  processing_seconds := now - start_time
                  audio_quality := "high" }
              let result : PodcastResult :=
                { status := "ready"
                  job_id := jobId
                  title := some ("Podcast: " ++ job.topic)
                  mp3_url := some ("http://localhost:8000/api/v1/" ++ finalPath jobId)
                  notes_url := some ("http://localhost:8000/api/v1/" ++ notesPath jobId)
                  script_url := some ("http://localhost:8000/api/v1/" ++ scriptPath jobId)
                  metrics := some metrics
                  created_at := start_time
                  completed_at := some now }
              let s := { s with fs := cleanup_temp_files fault temp_files s.fs }
              (Except.ok result, s)

/-- Model of `PodcastGenerator._generate_podcast_worker`, stages 1-2:
source discovery, then either the designed fallback branch (no sources) or
content extraction, then the shared tail `worker_from_script`. Returns the
value the coroutine produces: `ok result` (normal return, including the
error-status result built by its `except Exception` handler) or
`error cancelled` when CancelledError propagates. -/

def generate_podcast_worker (c : Collaborators) (fault : String → Bool)
    (jobId : String) (s : WorldState) (start_time now : Int) :
    Except PyErr PodcastResult × WorldState :=
  match getJob s.q jobId with
  | none =>
      worker_on_err fault jobId (PyErr.exc ("Job " ++ jobId ++ " not found"))
        start_time [] s
  | some job =>
      let s := emitW s jobId 0 "Searching the web for diverse sources..." now
      match c.get_diverse_sources with
      | .error e => worker_on_err fault jobId e start_time [] s
      | .ok sources =>
          if sources.isEmpty then
            let s := emitW s jobId 15
              "No web sources found, generating content from topic..." now
            let content := fallback_content job.topic job.description
            let s := emitW s jobId 30 "Generated fallback content successfully" now
            worker_from_script c fault jobId job sources (Sum.inl content) s
              start_time now
          else
            let s := emitW s jobId 15
              ("Found " ++ toString sources.length ++ " relevant sources") now
            let s := emitW s jobId 20
              "Extracting and cleaning content from sources..." now
            match c.extract_content_from_sources sources with
            | .error e => worker_on_err fault jobId e start_time [] s
            | .ok extracted =>
                let s := emitW s jobId 30 "Content extraction completed" now
                worker_from_script c fault jobId job sources (Sum.inr extracted) s
                  start_time now

/-- Model of `JobQueue._run_job` for an arbitrary generator function: the
initial progress emission, the await of the generator, the result/except
branches, and the finally branch that unregisters the task. A missing job
makes both the try and the except lookup raise KeyError, so only the
finally branch acts. -/

def run_job (worker : WorldState → Except PyErr PodcastResult × WorldState)
    (jobId : String) (s : WorldState) (now : Int) : WorldState :=
  let sFin :=
    match getJob s.q jobId with
    | none => s
    | some _ =>
        let s1 := emitW s jobId 0 "Starting podcast generation..." now
        match worker s1 with
        | (Except.error PyErr.cancelled, s2) =>
            match getJob s2.q jobId with
            | none => s2
            | some job =>
                let job1 := { job with status := JobState.cancelled,
                                       updated_at := now }
                { s2 with q := setJob s2.q jobId job1 }
        | (Except.error (PyErr.exc m), s2) =>
            match getJob s2.q jobId with
            | none => s2
            | some job =>
                let job1 := { job with status := JobState.failed,
                                       error := some m, updated_at := now }
                { s2 with q := setJob s2.q jobId job1 }
        | (Except.ok r, s2) =>
            match getJob s2.q jobId with
            | none => s2
            | some job =>
                let job1 :=
                  if r.status = "error" then
                    { job with status := JobState.failed,
                               error := some (pyOrStr r.error
                                 "Podcast generation failed") }
                  else { job with status := JobState.completed }
                let job2 := { job1 with result := some r,
                                        completed_at := some now,
                                        updated_at := now }
                emitW { s2 with q := setJob s2.q jobId job2 } jobId 100
                  "Podcast generation completed!" now
  { sFin with q := if rjContains sFin.q jobId then rjDel sFin.q jobId else sFin.q }

/-- The full background run of one podcast job: `JobQueue._run_job` applied
to `PodcastGenerator._generate_podcast_worker`. -/

def run_podcast_job (c : Collaborators) (fault : String → Bool)
    (jobId : String) (s : WorldState) (start_time now : Int) : WorldState :=
  run_job (fun s1 => generate_podcast_worker c fault jobId s1 start_time now)
    jobId s now

/-- An old running job, as the sweep-scenario fixture. -/

def jobOldRunning : Job :=
  { job_id := "r", status := JobState.running, topic := "a", description := "",
    tone := "neutral", target_length := 10, created_at := 0, updated_at := 0 }

/-- An old completed job, as the sweep-scenario fixture. -/

def jobOldCompleted : Job :=
  { jobOldRunning with job_id := "c", status := JobState.completed }

/-- A store holding one old Running job and one old Completed job. -/

def qSweep : JobQueue :=
  { jobs := [("r", jobOldRunning), ("c", jobOldCompleted)], running_jobs := [] }

/-! Fixtures used by witnesses and counterexamples. -/

/-- A freshly created pending job. -/

def jobPend : Job :=
  { job_id := "j", status := JobState.pending, topic := "ocean currents",
    description := "", tone := "neutral", target_length := 10,
    created_at := 0, updated_at := 0 }

/-- The same job once started. -/

def jobRun : Job :=
  { jobPend with status := JobState.running, started_at := some 1, updated_at := 1 }

/-- A store with the pending job and no active task. -/

def qPend : JobQueue := { jobs := [("j", jobPend)], running_jobs := [] }

/-- A store with the running job and its active task registered. -/

def qRun : JobQueue := { jobs := [("j", jobRun)], running_jobs := ["j"] }

/-- World around `qRun` with empty file system and trace. -/

def wRun : WorldState := { q := qRun, fs := [], trace := [] }

/-- Collaborators for a fully successful run with zero web sources. -/

def collabOk : Collaborators :=
  { get_diverse_sources := Except.ok []
    extract_content_from_sources := fun _ => Except.ok []
    generate_script_from_text :=
      fun _ => Except.ok { script := "hello world", word_count := 2 }
    generate_script :=
      fun _ => Except.ok { script := "hello world", word_count := 2 }
    generate_speech := fun _ => Except.ok { processing_time := 3 }
    process_audio := Except.ok { duration_seconds := 60 } }

/-- Same collaborators, but CancelledError is delivered during the speech
synthesis call. -/

def collabCancelTTS : Collaborators :=
  { collabOk with generate_speech := fun _ => Except.error PyErr.cancelled }

/-- Same collaborators, but speech synthesis raises an exception. -/

def collabFailTTS : Collaborators :=
  { collabOk with generate_speech := fun _ => Except.error (PyErr.exc "tts down") }

/-- Same collaborators, but script generation raises on every call. -/

def collabFailScript : Collaborators :=
  { collabOk with
      generate_script_from_text := fun _ => Except.error (PyErr.exc "llm down")
      generate_script := fun _ => Except.error (PyErr.exc "llm down") }

/-- An error-status result such as the worker's exception handler builds. -/

def resErr : PodcastResult :=
  { status := "error", job_id := "j", error := some "boom" }

/-- The error-status result the worker's exception handler builds. -/

def errResult (jobId m : String) (t0 : Int) : PodcastResult :=
  { status := "error", job_id := jobId, error := some m, created_at := t0 }

/-! A segment calculus for the progress trace: `Step a b id s s2` certifies
that between world states s and s2 the trace grew only by emissions whose
percents fit monotonically between a and b, and that the job record under
id is not lost. -/

def Step (a b : Nat) (id : String) (s s2 : WorldState) : Prop :=
  (∃ L, s2.trace = s.trace ++ L ∧
    List.Chain' (· ≤ ·) (a :: (L.map Prod.fst ++ [b]))) ∧
  ((getJob s.q id).isSome = true → (getJob s2.q id).isSome = true)

/-- The worker coroutine either returns a value or lets CancelledError
propagate; an ordinary exception never escapes it. -/

def WOut (out : Except PyErr PodcastResult) : Prop :=
  (∃ r, out = Except.ok r) ∨ out = Except.error PyErr.cancelled

/-- Collaborators whose source discovery raises, for the C5 witness run. -/

def collabNoSearch : Collaborators :=
  { collabOk with get_diverse_sources := Except.error (PyErr.exc "search down") }

/-! Helper lemmas about the store operations. -/

theorem find_map_set (l : List (String × Job)) (id : String) (j : Job) :
    (l.map (fun p => if p.1 == id then (p.1, j) else p)).find? (fun p => p.1 == id)
      = (l.find? (fun p => p.1 == id)).map (fun p => (p.1, j)) := by
  induction l with
  | nil => rfl
  | cons a t ih =>
      by_cases h : (a.1 == id) = true
      · simp only [List.map_cons, if_pos h]
        simp [List.find?, h]
      · simp only [List.map_cons, if_neg h]
        simp only [List.find?]
        rw [show (a.1 == id) = false from by simpa using h]
        exact ih

theorem getJob_setJob_self (q : JobQueue) (id : String) (j : Job) :
    getJob (setJob q id j) id = (getJob q id).map (fun _ => j) := by
  simp only [getJob, setJob, find_map_set, Option.map_map]
  cases q.jobs.find? (fun p => p.1 == id) <;> rfl

theorem running_setJob (q : JobQueue) (id : String) (j : Job) :
    (setJob q id j).running_jobs = q.running_jobs := rfl

theorem getJob_update_self (q : JobQueue) (id : String) (pct : Nat)
    (msg : String) (l : Option (List String)) (t : Int) :
    getJob (update_job_progress q id pct msg l t) id
      = (getJob q id).map
          (fun j => { j with progress := some (mkProgress pct msg l), updated_at := t }) := by
  unfold update_job_progress
  cases h : getJob q id with
  | none => simp [h]
  | some j => simp [h, getJob_setJob_self]

theorem running_update (q : JobQueue) (id : String) (pct : Nat)
    (msg : String) (l : Option (List String)) (t : Int) :
    (update_job_progress q id pct msg l t).running_jobs = q.running_jobs := by
  unfold update_job_progress
  cases h : getJob q id <;> rfl

theorem contains_filter_ne (l : List String) (id : String) :
    (l.filter (fun i => i != id)).contains id = false := by
  rw [Bool.eq_false_iff]
  intro hc
  have hmem : id ∈ l.filter (fun i => i != id) := List.elem_iff.mp hc
  have h2 := (List.mem_filter.mp hmem).2
  simp at h2

theorem getJob_rjWrap (q : JobQueue) (id id2 : String) :
    getJob (if rjContains q id then rjDel q id else q) id2 = getJob q id2 := by
  by_cases hc : rjContains q id <;> simp [hc, rjDel, getJob]

theorem pyOrStr_ne (x : Option String) (d : String) (hd : d ≠ "") :
    pyOrStr x d ≠ "" := by
  unfold pyOrStr
  cases x with
  | none => exact hd
  | some s =>
      by_cases hs : s = ""
      · simpa [hs] using hd
      · simp only [if_neg hs]
        exact hs

theorem find_filter_ne (l : List (String × Job)) (i id : String)
    (hne : id ≠ i) :
    (l.filter (fun p => p.1 != i)).find? (fun p => p.1 == id)
      = l.find? (fun p => p.1 == id) := by
  induction l with
  | nil => rfl
  | cons a t ih =>
      simp only [List.filter_cons]
      by_cases hai : (a.1 == i) = true
      · have hfb : (a.1 != i) = false := by simp [bne, hai]
        rw [hfb]
        simp only [Bool.false_eq_true, if_false]
        rw [ih]
        have hii : a.1 = i := by simpa using hai
        have h2 : (a.1 == id) = false := by
          rw [beq_eq_false_iff_ne, hii]
          exact fun hc => hne hc.symm
        have hskip : (a :: t).find? (fun p => p.1 == id)
            = t.find? (fun p => p.1 == id) := by
          simp [List.find?, h2]
        rw [hskip]
      · have hf : (a.1 == i) = false := by simpa using hai
        have hfb : (a.1 != i) = true := by simp [bne, hf]
        rw [hfb]
        simp only [if_true]
        by_cases h2 : (a.1 == id) = true
        · simp [List.find?, h2]
        · have hf2 : (a.1 == id) = false := by simpa using h2
          simp only [List.find?, hf2]
          exact ih

theorem getJob_delJob_ne (q : JobQueue) (i id : String) (hne : id ≠ i) :
    getJob (delJob q i) id = getJob q id := by
  simp only [getJob, delJob, find_filter_ne _ _ _ hne]

theorem find_of_mem_nodup_keys (l : List (String × Job))
    (hnd : (l.map (fun p => p.1)).Nodup) (p : String × Job) (hp : p ∈ l) :
    l.find? (fun x => x.1 == p.1) = some p := by
  induction l with
  | nil => cases hp
  | cons a t ih =>
      have hnd2 : (a.1 :: t.map (fun p => p.1)).Nodup := by
        simpa only [List.map_cons] using hnd
      have hnd' := List.nodup_cons.mp hnd2
      rcases List.mem_cons.mp hp with rfl | hmem
      · simp [List.find?]
      · have ha : (a.1 == p.1) = false := by
          have hp1 : p.1 ∈ t.map (fun x => x.1) := List.mem_map_of_mem _ hmem
          simp only [beq_eq_false_iff_ne, ne_eq]
          rintro he
          exact hnd'.1 (he ▸ hp1)
        simp only [List.find?, ha]
        exact ih hnd'.2 hmem

theorem remove_job_terminal (q : JobQueue) (id : String) (now : Int) (j : Job)
    (h : getJob q id = some j) (ht : j.status.isTerminal = true) :
    (remove_job q id now).2 = delJob q id := by
  have h1 : ¬(j.status = JobState.pending ∨ j.status = JobState.running) := by
    rcases hs : j.status <;> simp_all [JobState.isTerminal]
  have hcanc : (cancel_job q id now).2 = q := by
    simp [cancel_job, h, h1]
  unfold remove_job
  have e : (if rjContains q id then (cancel_job q id now).2 else q) = q := by
    by_cases hc : rjContains q id <;> simp [hc, hcanc]
  rw [e]
  simp [h]

theorem fold_remove_filter (now : Int) (R : List String) :
    ∀ (q : JobQueue), R.Nodup →
      (∀ i ∈ R, ∃ j, getJob q i = some j ∧ j.status.isTerminal = true) →
      (R.foldl (fun acc i => (remove_job acc i now).2) q).jobs
          = q.jobs.filter (fun p => !(R.contains p.1)) ∧
      (R.foldl (fun acc i => (remove_job acc i now).2) q).running_jobs
          = q.running_jobs := by
  induction R with
  | nil =>
      intro q _ _
      exact ⟨by simp, rfl⟩
  | cons i t ih =>
      intro q hnd hall
      obtain ⟨j, hj, hjt⟩ := hall i (List.mem_cons_self i t)
      have hrm : (remove_job q i now).2 = delJob q i :=
        remove_job_terminal q i now j hj hjt
      have hnd' := List.nodup_cons.mp hnd
      have hall' : ∀ x ∈ t, ∃ jx, getJob (delJob q i) x = some jx ∧
          jx.status.isTerminal = true := by
        intro x hx
        obtain ⟨jx, hjx, hjxt⟩ := hall x (List.mem_cons_of_mem i hx)
        have hxi : x ≠ i := fun he => hnd'.1 (he ▸ hx)
        exact ⟨jx, by rw [getJob_delJob_ne q i x hxi]; exact hjx, hjxt⟩
      obtain ⟨e1, e2⟩ := ih (delJob q i) hnd'.2 hall'
      constructor
      · rw [List.foldl_cons, hrm, e1]
        show (q.jobs.filter (fun p => p.1 != i)).filter (fun p => !(t.contains p.1))
            = q.jobs.filter (fun p => !((i :: t).contains p.1))
        rw [List.filter_filter]
        apply List.filter_congr
        intro p _
        show ((!(t.contains p.1)) && (p.1 != i)) = (!((i :: t).contains p.1))
        have hc : (i :: t).contains p.1 = ((p.1 == i) || t.contains p.1) := rfl
        rw [hc]
        cases hpi : (p.1 == i) <;> cases hct : t.contains p.1 <;>
          simp [bne, hpi, hct]
      · rw [List.foldl_cons, hrm, e2]
        rfl

/-- C8: one sweep removes from the store exactly the jobs whose state is
terminal and older than the cutoff, and touches nothing else: the surviving
entries are precisely the non-(terminal-and-old) ones, in order, and the
active-task set is untouched, so Pending/Running jobs are never removed
regardless of age. -/

theorem c8_sweep_exact (q : JobQueue) (cutoff now : Int)
    (hnd : (q.jobs.map (fun p => p.1)).Nodup) :
    (cleanup_sweep q cutoff now).jobs
      = q.jobs.filter
          (fun p => !(p.2.status.isTerminal && decide (p.2.updated_at < cutoff))) ∧
    (cleanup_sweep q cutoff now).running_jobs = q.running_jobs := by
  have hsw : cleanup_sweep q cutoff now
      = ((q.jobs.filter
          (fun p => p.2.status.isTerminal && decide (p.2.updated_at < cutoff))).map
          (fun p => p.1)).foldl (fun acc jobId => (remove_job acc jobId now).2) q := rfl
  set P : String × Job → Bool :=
    fun p => p.2.status.isTerminal && decide (p.2.updated_at < cutoff) with hP
  set R := (q.jobs.filter P).map (fun p => p.1) with hRd
  have hRnd : R.Nodup :=
    ((List.filter_sublist q.jobs).map (fun p => p.1)).nodup hnd
  have hall : ∀ i ∈ R, ∃ j, getJob q i = some j ∧ j.status.isTerminal = true := by
    intro i hi
    obtain ⟨p, hpmem, hpfst⟩ := List.mem_map.mp hi
    have hpin : p ∈ q.jobs := List.mem_of_mem_filter hpmem
    have hpP : P p = true := List.of_mem_filter hpmem
    have hpP2 : p.2.status.isTerminal = true ∧ p.2.updated_at < cutoff := by
      simpa [hP] using hpP
    refine ⟨p.2, ?_, hpP2.1⟩
    show (q.jobs.find? (fun x => x.1 == i)).map (fun x => x.2) = some p.2
    rw [← hpfst, find_of_mem_nodup_keys q.jobs hnd p hpin]
    rfl
  obtain ⟨e1, e2⟩ := fold_remove_filter now R q hRnd hall
  rw [hsw]
  refine ⟨?_, e2⟩
  rw [e1]
  apply List.filter_congr
  intro p hp
  show (!(R.contains p.1)) = (!(P p))
  congr 1
  by_cases hPp : P p = true
  · have hmemR : p.1 ∈ R := List.mem_map_of_mem _ (List.mem_filter_of_mem hp hPp)
    rw [hPp]
    exact List.elem_iff.mpr hmemR
  · have hnot : p.1 ∉ R := by
      intro hmem
      obtain ⟨p2, hp2mem, hp2fst⟩ := List.mem_map.mp hmem
      have hp2in : p2 ∈ q.jobs := List.mem_of_mem_filter hp2mem
      have hp2P : P p2 = true := List.of_mem_filter hp2mem
      have : p2 = p := List.inj_on_of_nodup_map hnd hp2in hp hp2fst
      exact hPp (this ▸ hp2P)
    rw [Bool.eq_false_iff.mpr hPp, Bool.eq_false_iff]
    intro hc
    exact hnot (List.elem_iff.mp hc)

/-- C8 witness: on the store with one old Running and one old Completed
job, the sweep keeps exactly the Running one. -/

theorem c8_sweep_exact_witness :
    (cleanup_sweep qSweep 10 99).jobs
      = qSweep.jobs.filter
          (fun p => !(p.2.status.isTerminal && decide (p.2.updated_at < 10))) ∧
    (cleanup_sweep qSweep 10 99).running_jobs = qSweep.running_jobs :=
  c8_sweep_exact qSweep 10 99 (by decide)

theorem mem_fsWrite_self (fs : List String) (p : String) : p ∈ fsWrite fs p := by
  unfold fsWrite
  by_cases hc : fs.contains p
  · rw [if_pos hc]
    exact List.elem_iff.mp hc
  · rw [if_neg hc]
    exact List.mem_cons_self p fs

theorem mem_fsWrite_of_mem (fs : List String) (p x : String) (hx : x ∈ fs) :
    x ∈ fsWrite fs p := by
  unfold fsWrite
  by_cases hc : fs.contains p
  · rw [if_pos hc]
    exact hx
  · rw [if_neg hc]
    exact List.mem_cons_of_mem p hx

theorem cleanup_loop_no_add (fault : String → Bool) (ps : List String) :
    ∀ (fs : List String) (x : String), x ∉ fs →
      x ∉ cleanup_files_loop fault ps fs := by
  induction ps with
  | nil => exact fun fs x hx => hx
  | cons p pt ih =>
      intro fs x hx
      have hred : cleanup_files_loop fault (p :: pt) fs
          = if fs.contains p then
              (if fault p then fs
               else cleanup_files_loop fault pt (fs.filter (fun y => y != p)))
            else cleanup_files_loop fault pt fs := rfl
      rw [hred]
      by_cases hc : fs.contains p
      · rw [if_pos hc]
        by_cases hf : fault p
        · rw [if_pos hf]
          exact hx
        · rw [if_neg hf]
          exact ih _ _ (fun hm => hx (List.mem_of_mem_filter hm))
      · rw [if_neg hc]
        exact ih _ _ hx

theorem cleanup_loop_removes (ps : List String) :
    ∀ (fs : List String) (p : String), p ∈ ps →
      p ∉ cleanup_files_loop (fun _ => false) ps fs := by
  induction ps with
  | nil => exact fun fs p hp => absurd hp (List.not_mem_nil p)
  | cons a t ih =>
      intro fs p hp
      have hred : cleanup_files_loop (fun _ => false) (a :: t) fs
          = if fs.contains a then
              cleanup_files_loop (fun _ => false) t (fs.filter (fun y => y != a))
            else cleanup_files_loop (fun _ => false) t fs := by
        show (if fs.contains a then
            (if false then fs
             else cleanup_files_loop (fun _ => false) t (fs.filter (fun y => y != a)))
          else cleanup_files_loop (fun _ => false) t fs) = _
        simp only [Bool.false_eq_true, if_false]
      rw [hred]
      rcases List.mem_cons.mp hp with rfl | hmem
      · by_cases hc : fs.contains p
        · rw [if_pos hc]
          apply cleanup_loop_no_add
          intro hm
          have := (List.mem_filter.mp hm).2
          simp at this
        · rw [if_neg hc]
          apply cleanup_loop_no_add
          intro hm
          exact hc (List.elem_iff.mpr hm)
      · by_cases hc : fs.contains a
        · rw [if_pos hc]
          exact ih _ _ hmem
        · rw [if_neg hc]
          exact ih _ _ hmem

theorem cleanup_temp_no_add (fault : String → Bool) (tmp : List String) :
    ∀ (fs : List String) (x : String), x ∉ fs →
      x ∉ cleanup_temp_files fault tmp fs := by
  induction tmp with
  | nil => exact fun fs x hx => hx
  | cons p pt ih =>
      intro fs x hx
      have e : cleanup_temp_files fault (p :: pt) fs
          = cleanup_temp_files fault pt
              (if fs.contains p then
                (if fault p then fs else fs.filter (fun y => y != p))
               else fs) := rfl
      rw [e]
      apply ih
      by_cases hc : fs.contains p
      · rw [if_pos hc]
        by_cases hf : fault p
        · rw [if_pos hf]
          exact hx
        · rw [if_neg hf]
          exact fun hm => hx (List.mem_of_mem_filter hm)
      · rw [if_neg hc]
        exact hx

/-! Claim theorems. -/

/-- C4: start_job succeeds only on an existing Pending job; a second start
while the job is still Pending or Running returns failure and registers no
second task, so the started id is registered exactly once. -/

theorem c4_single_start (q : JobQueue) (id : String) (t1 t2 : Int) :
    (getJob q id = none → start_job q id t1 = (false, q)) ∧
    (∀ j, getJob q id = some j → j.status ≠ JobState.pending →
      start_job q id t1 = (false, q)) ∧
    (∀ j, getJob q id = some j → j.status = JobState.pending →
      q.running_jobs.count id = 0 →
      (start_job q id t1).1 = true ∧
      (start_job q id t1).2.running_jobs.count id = 1 ∧
      start_job (start_job q id t1).2 id t2 = (false, (start_job q id t1).2)) := by
  refine ⟨fun h => by simp [start_job, h],
    fun j h hne => by simp [start_job, h, hne], ?_⟩
  intro j h hp hcnt
  have hnotmem : id ∉ q.running_jobs := List.count_eq_zero.mp hcnt
  have hcont : q.running_jobs.contains id = false := by
    rw [Bool.eq_false_iff]
    intro hc
    exact hnotmem (List.elem_iff.mp hc)
  have hq1 : start_job q id t1
      = (true, rjAdd (setJob q id { j with status := JobState.running, started_at := some t1, updated_at := t1 }) id) := by
    simp [start_job, h, hp]
  have hget : getJob (start_job q id t1).2 id
      = some { j with status := JobState.running, started_at := some t1, updated_at := t1 } := by
    rw [hq1]
    have e : getJob (rjAdd (setJob q id { j with status := JobState.running, started_at := some t1, updated_at := t1 }) id) id
        = getJob (setJob q id { j with status := JobState.running, started_at := some t1, updated_at := t1 }) id := rfl
    rw [e, getJob_setJob_self, h]
    rfl
  refine ⟨by rw [hq1], ?_, ?_⟩
  · rw [hq1]
    show (rjAdd (setJob q id _) id).running_jobs.count id = 1
    simp only [rjAdd, running_setJob, hcont]
    simp only [Bool.false_eq_true, if_false, List.count_cons_self, hcnt]
  · set q1 := (start_job q id t1).2 with hq1d
    simp [start_job, hget]

/-- C4 witness: the double-start scenario on the concrete pending store. -/

theorem c4_single_start_witness :
    (start_job qPend "j" 1).1 = true ∧
    (start_job qPend "j" 1).2.running_jobs.count "j" = 1 ∧
    start_job (start_job qPend "j" 1).2 "j" 2
      = (false, (start_job qPend "j" 1).2) :=
  (c4_single_start qPend "j" 1 2).2.2 jobPend (by decide) (by decide) (by decide)

/-- C6: cancelling a Pending job succeeds and immediately yields state
Cancelled with result and error still null; cancelling a job already in a
terminal state returns false and leaves the queue untouched. -/

theorem c6_cancel_pending_terminal (q : JobQueue) (id : String) (now : Int) :
    (∀ j, getJob q id = some j → j.status = JobState.pending →
      j.result = none → j.error = none →
      (cancel_job q id now).1 = true ∧
      ∃ j2, getJob (cancel_job q id now).2 id = some j2 ∧
        j2.status = JobState.cancelled ∧ j2.result = none ∧ j2.error = none) ∧
    (∀ j, getJob q id = some j → j.status.isTerminal = true →
      cancel_job q id now = (false, q)) := by
  constructor
  · intro j h hp hr he
    have hcond : j.status = JobState.pending ∨ j.status = JobState.running :=
      Or.inl hp
    refine ⟨by simp [cancel_job, h, hcond], ?_⟩
    refine ⟨{ j with status := JobState.cancelled, updated_at := now }, ?_, rfl, hr, he⟩
    have e2 : (cancel_job q id now).2
        = setJob (if rjContains q id then rjDel q id else q) id { j with status := JobState.cancelled, updated_at := now } := by
      simp [cancel_job, h, hcond]
    rw [e2, getJob_setJob_self]
    have e3 : getJob (if rjContains q id then rjDel q id else q) id = getJob q id := by
      by_cases hc : rjContains q id <;> simp [hc, rjDel, getJob]
    rw [e3, h]
    rfl
  · intro j h ht
    have h1 : ¬ (j.status = JobState.pending ∨ j.status = JobState.running) := by
      rcases hs : j.status <;> simp_all [JobState.isTerminal]
    simp [cancel_job, h, h1]

/-- C6 witness: cancel on the concrete pending store. -/

theorem c6_cancel_pending_terminal_witness :
    (cancel_job qPend "j" 3).1 = true ∧
    ∃ j2, getJob (cancel_job qPend "j" 3).2 "j" = some j2 ∧
      j2.status = JobState.cancelled ∧ j2.result = none ∧ j2.error = none :=
  (c6_cancel_pending_terminal qPend "j" 3).1 jobPend (by decide) (by decide)
    (by decide) (by decide)

/-- C2 counterexample: on a running job with an active task, cancel_job
itself deletes the task entry, so immediately after it returns the id is
absent from the active set — the claim requires it to still be present. -/

theorem c2_counterexample :
    (cancel_job qRun "j" 5).1 = true ∧
    ((cancel_job qRun "j" 5).2.running_jobs.contains "j") = false := by
  decide

/-- C2 amended: when cancel(id) is called on a Pending or Running job, the
cancel call itself removes the task entry from the scheduler's active set,
so immediately after cancel(id) returns the id is no longer present (the
task's own exit path deletes the entry only if it is still there). -/

theorem c2_cancel_removes_task (q : JobQueue) (id : String) (now : Int)
    (j : Job) (h : getJob q id = some j)
    (hs : j.status = JobState.pending ∨ j.status = JobState.running) :
    (cancel_job q id now).1 = true ∧
    ((cancel_job q id now).2.running_jobs.contains id) = false := by
  refine ⟨by simp [cancel_job, h, hs], ?_⟩
  have e2 : (cancel_job q id now).2
      = setJob (if rjContains q id then rjDel q id else q) id { j with status := JobState.cancelled, updated_at := now } := by
    simp [cancel_job, h, hs]
  rw [e2, running_setJob]
  by_cases hc : rjContains q id
  · rw [if_pos hc]
    exact contains_filter_ne q.running_jobs id
  · rw [if_neg hc]
    simpa [rjContains] using hc

/-- C2 amended witness: the concrete running store. -/

theorem c2_cancel_removes_task_witness :
    (cancel_job qRun "j" 5).1 = true ∧
    ((cancel_job qRun "j" 5).2.running_jobs.contains "j") = false :=
  c2_cancel_removes_task qRun "j" 5 jobRun (by decide) (Or.inr (by decide))

/-- C1 counterexample: when the worker returns an error-status result, the
job ends Failed with BOTH result and error non-null — the claim requires a
Failed job to have a null result. -/

theorem c1_counterexample :
    ((getJob (run_job (fun s => (Except.ok resErr, s)) "j" wRun 7).q "j").map
      (fun j2 => (j2.status, j2.result, j2.error)))
      = some (JobState.failed, some resErr, some "boom") := by
  decide

/-- C1 amended: once terminal, a Completed job has a non-null result and a
null error, and a Failed job has a non-null, non-empty error; but a Failed
job additionally carries a non-null result whenever the worker returned an
error-status result (its result is null only when the worker raised), and a
Cancelled job has both null. Both stay null through the cancellation path
when they were null while Pending/Running. -/

theorem c1_terminal_result_error (id : String) (now : Int) (s : WorldState)
    (j : Job) (h : getJob s.q id = some j) (hr : j.result = none)
    (he : j.error = none) :
    (∀ r : PodcastResult, r.status = "error" →
      ∃ j2, getJob (run_job (fun s2 => (Except.ok r, s2)) id s now).q id
          = some j2 ∧
        j2.status = JobState.failed ∧ j2.result = some r ∧
        ∃ m, j2.error = some m ∧ m ≠ "") ∧
    (∀ r : PodcastResult, r.status ≠ "error" →
      ∃ j2, getJob (run_job (fun s2 => (Except.ok r, s2)) id s now).q id
          = some j2 ∧
        j2.status = JobState.completed ∧ j2.result = some r ∧ j2.error = none) ∧
    (∀ m : String,
      ∃ j2, getJob (run_job (fun s2 => (Except.error (PyErr.exc m), s2)) id s now).q id
          = some j2 ∧
        j2.status = JobState.failed ∧ j2.result = none ∧ j2.error = some m) ∧
    (∃ j2, getJob (run_job (fun s2 => (Except.error PyErr.cancelled, s2)) id s now).q id
        = some j2 ∧
      j2.status = JobState.cancelled ∧ j2.result = none ∧ j2.error = none) := by
  refine ⟨?_, ?_, ?_, ?_⟩
  · intro r hrs
    simp only [run_job, emitW, h, getJob_update_self, getJob_setJob_self,
      getJob_rjWrap, Option.map_some', hrs, if_pos]
    exact ⟨_, rfl, rfl, rfl, pyOrStr r.error "Podcast generation failed", rfl,
      pyOrStr_ne _ _ (by decide)⟩
  · intro r hrs
    simp only [run_job, emitW, h, getJob_update_self, getJob_setJob_self,
      getJob_rjWrap, Option.map_some', if_neg hrs]
    exact ⟨_, rfl, rfl, rfl, he⟩
  · intro m
    simp only [run_job, emitW, h, getJob_update_self, getJob_setJob_self,
      getJob_rjWrap, Option.map_some']
    exact ⟨_, rfl, rfl, hr, rfl⟩
  · simp only [run_job, emitW, h, getJob_update_self, getJob_setJob_self,
      getJob_rjWrap, Option.map_some']
    exact ⟨_, rfl, rfl, hr, he⟩

/-- C1 amended witness: the error-status outcome on the concrete running
store. -/

theorem c1_terminal_result_error_witness :
    ∃ j2, getJob (run_job (fun s2 => (Except.ok resErr, s2)) "j" wRun 7).q "j"
        = some j2 ∧
      j2.status = JobState.failed ∧ j2.result = some resErr ∧
      ∃ m, j2.error = some m ∧ m ≠ "" :=
  (c1_terminal_result_error "j" 7 wRun jobRun (by decide) (by decide)
    (by decide)).1 resErr (by decide)

/-- C10: when the worker returns a result whose status is "error", the
runner marks the job Failed, copies the result's error message into the
error field, still stores the error-status result object in the result
field, sets completed_at, and records one final snapshot with percent 100,
stage 5 and message "Podcast generation completed!". -/

theorem c10_error_result_final_progress (id : String) (now : Int)
    (s : WorldState) (j : Job) (r : PodcastResult) (m : String)
    (h : getJob s.q id = some j) (hrs : r.status = "error")
    (hre : r.error = some m) (hm : m ≠ "") :
    ∃ j2, getJob (run_job (fun s2 => (Except.ok r, s2)) id s now).q id
        = some j2 ∧
      j2.status = JobState.failed ∧ j2.error = some m ∧ j2.result = some r ∧
      j2.completed_at = some now ∧
      j2.progress = some (mkProgress 100 "Podcast generation completed!" none) ∧
      (mkProgress 100 "Podcast generation completed!" none).percent = 100 := by
  simp only [run_job, emitW, h, getJob_update_self, getJob_setJob_self,
    getJob_rjWrap, Option.map_some', hrs, if_pos]
  refine ⟨_, rfl, rfl, ?_, rfl, rfl, rfl, rfl⟩
  show some (pyOrStr r.error "Podcast generation failed") = some m
  rw [hre]
  simp [pyOrStr, hm]

/-- C10 witness: the concrete running store and error-status result. -/

theorem c10_error_result_final_progress_witness :
    ∃ j2, getJob (run_job (fun s2 => (Except.ok resErr, s2)) "j" wRun 7).q "j"
        = some j2 ∧
      j2.status = JobState.failed ∧ j2.error = some "boom" ∧
      j2.result = some resErr ∧ j2.completed_at = some 7 ∧
      j2.progress = some (mkProgress 100 "Podcast generation completed!" none) ∧
      (mkProgress 100 "Podcast generation completed!" none).percent = 100 :=
  c10_error_result_final_progress "j" 7 wRun jobRun resErr "boom" (by decide)
    (by decide) (by decide) (by decide)

/-! Evaluation lemmas for run_job, given the generator outcome as an
equation at the post-initial-emit state. -/

theorem run_job_returns_ok
    (worker : WorldState → Except PyErr PodcastResult × WorldState)
    (id : String) (s : WorldState) (now : Int) (j jx : Job)
    (r : PodcastResult) (s2 : WorldState)
    (h : getJob s.q id = some j)
    (hw : worker (emitW s id 0 "Starting podcast generation..." now)
      = (Except.ok r, s2))
    (h2 : getJob s2.q id = some jx) (hrs : ¬ r.status = "error") :
    ∃ j2, getJob (run_job worker id s now).q id = some j2 ∧
      j2.status = JobState.completed ∧ j2.result = some r ∧
      j2.completed_at = some now ∧
      (run_job worker id s now).fs = s2.fs ∧
      (run_job worker id s now).trace
        = s2.trace ++ [(100, "Podcast generation completed!")] := by
  unfold run_job
  rw [h]
  simp only []
  rw [hw]
  simp only [h2, if_neg hrs, emitW, getJob_update_self, getJob_setJob_self,
    getJob_rjWrap, Option.map_some']
  exact ⟨_, rfl, by simp⟩

theorem run_job_returns_error
    (worker : WorldState → Except PyErr PodcastResult × WorldState)
    (id : String) (s : WorldState) (now : Int) (j jx : Job)
    (r : PodcastResult) (s2 : WorldState)
    (h : getJob s.q id = some j)
    (hw : worker (emitW s id 0 "Starting podcast generation..." now)
      = (Except.ok r, s2))
    (h2 : getJob s2.q id = some jx) (hrs : r.status = "error") :
    ∃ j2, getJob (run_job worker id s now).q id = some j2 ∧
      j2.status = JobState.failed ∧
      j2.error = some (pyOrStr r.error "Podcast generation failed") ∧
      j2.result = some r ∧ j2.completed_at = some now ∧
      (run_job worker id s now).fs = s2.fs ∧
      (run_job worker id s now).trace
        = s2.trace ++ [(100, "Podcast generation completed!")] := by
  unfold run_job
  rw [h]
  simp only []
  rw [hw]
  simp only [h2, hrs, if_pos, emitW, getJob_update_self, getJob_setJob_self,
    getJob_rjWrap, Option.map_some']
  exact ⟨_, rfl, by simp⟩

theorem run_job_cancelled_out
    (worker : WorldState → Except PyErr PodcastResult × WorldState)
    (id : String) (s : WorldState) (now : Int) (j jx : Job) (s2 : WorldState)
    (h : getJob s.q id = some j)
    (hw : worker (emitW s id 0 "Starting podcast generation..." now)
      = (Except.error PyErr.cancelled, s2))
    (h2 : getJob s2.q id = some jx) :
    ∃ j2, getJob (run_job worker id s now).q id = some j2 ∧
      j2.status = JobState.cancelled ∧ j2.result = jx.result ∧
      j2.error = jx.error ∧
      (run_job worker id s now).fs = s2.fs ∧
      (run_job worker id s now).trace = s2.trace := by
  unfold run_job
  rw [h]
  simp only []
  rw [hw]
  simp only [h2, getJob_setJob_self, getJob_rjWrap, Option.map_some']
  exact ⟨_, rfl, by simp⟩

theorem run_job_error_trace
    (worker : WorldState → Except PyErr PodcastResult × WorldState)
    (id : String) (s : WorldState) (now : Int) (j : Job) (e : PyErr)
    (s2 : WorldState)
    (h : getJob s.q id = some j)
    (hw : worker (emitW s id 0 "Starting podcast generation..." now)
      = (Except.error e, s2)) :
    (run_job worker id s now).trace = s2.trace := by
  unfold run_job
  rw [h]
  simp only []
  rw [hw]
  cases e with
  | exc m =>
      cases h2 : getJob s2.q id <;> simp [h2]
  | cancelled =>
      cases h2 : getJob s2.q id <;> simp [h2]

theorem run_job_missing
    (worker : WorldState → Except PyErr PodcastResult × WorldState)
    (id : String) (s : WorldState) (now : Int)
    (h : getJob s.q id = none) :
    (run_job worker id s now).trace = s.trace ∧
    (run_job worker id s now).fs = s.fs := by
  unfold run_job
  rw [h]
  exact ⟨rfl, rfl⟩

theorem getJob_emitW_self (s : WorldState) (id : String) (p : Nat)
    (m : String) (t : Int) :
    getJob (emitW s id p m t).q id
      = (getJob s.q id).map
          (fun j => { j with progress := some (mkProgress p m none), updated_at := t }) := by
  simp [emitW, getJob_update_self]

theorem emitW_fs (s : WorldState) (id : String) (p : Nat) (m : String)
    (t : Int) : (emitW s id p m t).fs = s.fs := rfl

theorem emitW_trace (s : WorldState) (id : String) (p : Nat) (m : String)
    (t : Int) : (emitW s id p m t).trace = s.trace ++ [(p, m)] := rfl

/-! Evaluation lemmas for the worker under fixed collaborator scenarios. -/

theorem worker_fallback_ok (c : Collaborators) (fault : String → Bool)
    (id : String) (s : WorldState) (j : Job) (sr : ScriptResult)
    (tts : TTSResult) (au : AudioResult) (t0 t1 : Int)
    (h : getJob s.q id = some j)
    (hsrc : c.get_diverse_sources = Except.ok [])
    (hscript : c.generate_script_from_text (fallback_content j.topic j.description)
      = Except.ok sr)
    (htts : c.generate_speech sr.script = Except.ok tts)
    (hau : c.process_audio = Except.ok au) :
    ∃ s2 r, generate_podcast_worker c fault id s t0 t1 = (Except.ok r, s2) ∧
      (∃ jx, getJob s2.q id = some jx) ∧ r.status = "ready" ∧
      ∃ mets, r.metrics = some mets ∧ mets.sources_used = 0 ∧
        mets.sources = [] := by
  simp only [generate_podcast_worker, worker_from_script, h, hsrc,
    List.isEmpty_nil, if_true, hscript, htts, hau]
  refine ⟨_, _, rfl, ?_, rfl, _, rfl, rfl, rfl⟩
  simp only [getJob_emitW_self, Option.map_some', h]
  exact ⟨_, rfl⟩

theorem worker_script_exc_fallback (c : Collaborators) (fault : String → Bool)
    (id : String) (s : WorldState) (j : Job) (m : String) (t0 t1 : Int)
    (h : getJob s.q id = some j)
    (hsrc : c.get_diverse_sources = Except.ok [])
    (hscript : c.generate_script_from_text (fallback_content j.topic j.description)
      = Except.error (PyErr.exc m)) :
    ∃ s2, generate_podcast_worker c fault id s t0 t1
        = (Except.ok (errResult id m t0), s2) ∧
      (∃ jx, getJob s2.q id = some jx) ∧
      s2.fs = cleanup_files fault id s.fs := by
  simp only [generate_podcast_worker, worker_from_script, h, hsrc,
    List.isEmpty_nil, if_true, hscript]
  refine ⟨_, rfl, ?_, ?_⟩
  · simp only [worker_on_err, getJob_emitW_self, Option.map_some', h]
    exact ⟨_, rfl⟩
  · simp only [worker_on_err, cleanup_temp_files, List.foldl_nil, emitW_fs]

theorem worker_script_exc_web (c : Collaborators) (fault : String → Bool)
    (id : String) (s : WorldState) (j : Job) (m : String)
    (srcs : List Source) (ex : List ExtractedContent) (t0 t1 : Int)
    (h : getJob s.q id = some j)
    (hsrc : c.get_diverse_sources = Except.ok srcs)
    (hne : srcs.isEmpty = false)
    (hex : c.extract_content_from_sources srcs = Except.ok ex)
    (hscript : c.generate_script ex = Except.error (PyErr.exc m)) :
    ∃ s2, generate_podcast_worker c fault id s t0 t1
        = (Except.ok (errResult id m t0), s2) ∧
      (∃ jx, getJob s2.q id = some jx) ∧
      s2.fs = cleanup_files fault id s.fs := by
  simp only [generate_podcast_worker, worker_from_script, h, hsrc, hne,
    Bool.false_eq_true, if_false, hex, hscript]
  refine ⟨_, rfl, ?_, ?_⟩
  · simp only [worker_on_err, getJob_emitW_self, Option.map_some', h]
    exact ⟨_, rfl⟩
  · simp only [worker_on_err, cleanup_temp_files, List.foldl_nil, emitW_fs]

theorem worker_speech_exc_fallback (c : Collaborators) (fault : String → Bool)
    (id : String) (s : WorldState) (j : Job) (sr : ScriptResult) (m : String)
    (t0 t1 : Int)
    (h : getJob s.q id = some j)
    (hsrc : c.get_diverse_sources = Except.ok [])
    (hscript : c.generate_script_from_text (fallback_content j.topic j.description)
      = Except.ok sr)
    (hspeech : c.generate_speech sr.script = Except.error (PyErr.exc m)) :
    ∃ s2, generate_podcast_worker c fault id s t0 t1
        = (Except.ok (errResult id m t0), s2) ∧
      (∃ jx, getJob s2.q id = some jx) ∧
      s2.fs = cleanup_temp_files fault [speechPath id]
        (cleanup_files fault id
          (fsWrite (fsWrite s.fs (scriptPath id)) (speechPath id))) := by
  simp only [generate_podcast_worker, worker_from_script, h, hsrc,
    List.isEmpty_nil, if_true, hscript, hspeech]
  refine ⟨_, rfl, ?_, ?_⟩
  · simp only [worker_on_err, getJob_emitW_self, Option.map_some', h]
    exact ⟨_, rfl⟩
  · simp only [worker_on_err, emitW_fs]

theorem worker_speech_cancel_fallback (c : Collaborators)
    (fault : String → Bool) (id : String) (s : WorldState) (j : Job)
    (sr : ScriptResult) (t0 t1 : Int)
    (h : getJob s.q id = some j)
    (hsrc : c.get_diverse_sources = Except.ok [])
    (hscript : c.generate_script_from_text (fallback_content j.topic j.description)
      = Except.ok sr)
    (hspeech : c.generate_speech sr.script = Except.error PyErr.cancelled) :
    ∃ s2, generate_podcast_worker c fault id s t0 t1
        = (Except.error PyErr.cancelled, s2) ∧
      (∃ jx, getJob s2.q id = some jx) ∧
      s2.fs = fsWrite (fsWrite s.fs (scriptPath id)) (speechPath id) := by
  simp only [generate_podcast_worker, worker_from_script, h, hsrc,
    List.isEmpty_nil, if_true, hscript, hspeech]
  refine ⟨_, rfl, ?_, ?_⟩
  · simp only [worker_on_err, getJob_emitW_self, Option.map_some', h]
    exact ⟨_, rfl⟩
  · simp only [worker_on_err, emitW_fs]

/-- C9: when source discovery returns the empty list, the pipeline does not
fail: it substitutes the synthetic fallback content derived from the topic
and description, continues through the same shared pipeline tail from the
script stage onward, and the job ends Completed with a ready result whose
metrics report sources_used = 0 and an empty sources list. -/

theorem c9_fallback_zero_sources (c : Collaborators) (fault : String → Bool)
    (id : String) (s : WorldState) (j : Job) (sr : ScriptResult)
    (tts : TTSResult) (au : AudioResult) (t0 t1 : Int)
    (h : getJob s.q id = some j)
    (hsrc : c.get_diverse_sources = Except.ok [])
    (hscript : c.generate_script_from_text (fallback_content j.topic j.description)
      = Except.ok sr)
    (htts : c.generate_speech sr.script = Except.ok tts)
    (hau : c.process_audio = Except.ok au) :
    ∃ j2 r, getJob (run_podcast_job c fault id s t0 t1).q id = some j2 ∧
      j2.status = JobState.completed ∧ j2.result = some r ∧
      r.status = "ready" ∧
      ∃ mets, r.metrics = some mets ∧ mets.sources_used = 0 ∧
        mets.sources = [] := by
  have h1 : ∃ j1, getJob (emitW s id 0 "Starting podcast generation..." t1).q id
      = some j1 ∧ j1.topic = j.topic ∧ j1.description = j.description := by
    rw [getJob_emitW_self, h]
    exact ⟨_, rfl, rfl, rfl⟩
  obtain ⟨j1, h1, hjt, hjd⟩ := h1
  have hscript1 : c.generate_script_from_text
      (fallback_content j1.topic j1.description) = Except.ok sr := by
    rw [hjt, hjd]
    exact hscript
  obtain ⟨s2, r, hw, ⟨jx, hjx⟩, hrs, mets, hmet, hmu, hms⟩ :=
    worker_fallback_ok c fault id
      (emitW s id 0 "Starting podcast generation..." t1) j1 sr tts au t0 t1
      h1 hsrc hscript1 htts hau
  have hready : ¬ r.status = "error" := by
    rw [hrs]
    decide
  obtain ⟨j2, hj2, hst, hres, _hcomp, _hfs, _htr⟩ :=
    run_job_returns_ok (fun s1 => generate_podcast_worker c fault id s1 t0 t1)
      id s t1 j jx r s2 h hw hjx hready
  exact ⟨j2, r, hj2, hst, hres, hrs, mets, hmet, hmu, hms⟩

/-- C9 witness: the concrete running store with the zero-source successful
collaborators. -/

theorem c9_fallback_zero_sources_witness :
    ∃ j2 r, getJob (run_podcast_job collabOk (fun _ => false) "j" wRun 0 9).q "j"
        = some j2 ∧
      j2.status = JobState.completed ∧ j2.result = some r ∧
      r.status = "ready" ∧
      ∃ mets, r.metrics = some mets ∧ mets.sources_used = 0 ∧
        mets.sources = [] :=
  c9_fallback_zero_sources collabOk (fun _ => false) "j" wRun jobRun
    { script := "hello world", word_count := 2 } { processing_time := 3 }
    { duration_seconds := 60 } 0 9 (by decide) rfl rfl rfl rfl

/-- C7: when a pipeline stage raises (here: the script-generation
collaborator raising on every call, reached on either the fallback route or
the web-sources route), the remaining stages are aborted, every job-scoped
artifact path (script, speech audio, processed audio, notes) is absent from
disk afterwards, and the job ends Failed with the raised message as its
error. -/

theorem c7_script_failure (c : Collaborators) (id : String) (s : WorldState)
    (j : Job) (m : String) (t0 t1 : Int)
    (h : getJob s.q id = some j) (hm : m ≠ "") :
    (c.get_diverse_sources = Except.ok [] →
      c.generate_script_from_text (fallback_content j.topic j.description)
        = Except.error (PyErr.exc m) →
      ∃ j2, getJob (run_podcast_job c (fun _ => false) id s t0 t1).q id
          = some j2 ∧
        j2.status = JobState.failed ∧ j2.error = some m ∧
        ∀ p ∈ files_to_remove id,
          p ∉ (run_podcast_job c (fun _ => false) id s t0 t1).fs) ∧
    (∀ srcs ex, c.get_diverse_sources = Except.ok srcs →
      srcs.isEmpty = false →
      c.extract_content_from_sources srcs = Except.ok ex →
      c.generate_script ex = Except.error (PyErr.exc m) →
      ∃ j2, getJob (run_podcast_job c (fun _ => false) id s t0 t1).q id
          = some j2 ∧
        j2.status = JobState.failed ∧ j2.error = some m ∧
        ∀ p ∈ files_to_remove id,
          p ∉ (run_podcast_job c (fun _ => false) id s t0 t1).fs) := by
  have h1 : ∃ j1, getJob (emitW s id 0 "Starting podcast generation..." t1).q id
      = some j1 ∧ j1.topic = j.topic ∧ j1.description = j.description := by
    rw [getJob_emitW_self, h]
    exact ⟨_, rfl, rfl, rfl⟩
  obtain ⟨j1, h1, hjt, hjd⟩ := h1
  have herr : pyOrStr (errResult id m t0).error "Podcast generation failed"
      = m := by
    simp [errResult, pyOrStr, hm]
  constructor
  · intro hsrc hscript
    have hscript1 : c.generate_script_from_text
        (fallback_content j1.topic j1.description)
        = Except.error (PyErr.exc m) := by
      rw [hjt, hjd]
      exact hscript
    obtain ⟨s2, hw, ⟨jx, hjx⟩, hfs⟩ :=
      worker_script_exc_fallback c (fun _ => false) id
        (emitW s id 0 "Starting podcast generation..." t1) j1 m t0 t1
        h1 hsrc hscript1
    obtain ⟨j2, hj2, hst, herr2, _hres, _hcomp, hfsall, _htr⟩ :=
      run_job_returns_error
        (fun s1 => generate_podcast_worker c (fun _ => false) id s1 t0 t1)
        id s t1 j jx (errResult id m t0) s2 h hw hjx rfl
    refine ⟨j2, hj2, hst, by rw [herr2, herr], ?_⟩
    intro p hp
    rw [show (run_podcast_job c (fun _ => false) id s t0 t1).fs
        = s2.fs from hfsall, hfs]
    exact cleanup_loop_removes (files_to_remove id) _ p hp
  · intro srcs ex hsrc hne hex hscript
    obtain ⟨s2, hw, ⟨jx, hjx⟩, hfs⟩ :=
      worker_script_exc_web c (fun _ => false) id
        (emitW s id 0 "Starting podcast generation..." t1) j1 m srcs ex t0 t1
        h1 hsrc hne hex hscript
    obtain ⟨j2, hj2, hst, herr2, _hres, _hcomp, hfsall, _htr⟩ :=
      run_job_returns_error
        (fun s1 => generate_podcast_worker c (fun _ => false) id s1 t0 t1)
        id s t1 j jx (errResult id m t0) s2 h hw hjx rfl
    refine ⟨j2, hj2, hst, by rw [herr2, herr], ?_⟩
    intro p hp
    rw [show (run_podcast_job c (fun _ => false) id s t0 t1).fs
        = s2.fs from hfsall, hfs]
    exact cleanup_loop_removes (files_to_remove id) _ p hp

/-- C7 witness: the always-raising script collaborator on the concrete
running store, through the fallback route. -/

theorem c7_script_failure_witness :
    ∃ j2, getJob (run_podcast_job collabFailScript (fun _ => false) "j" wRun 0 9).q "j"
        = some j2 ∧
      j2.status = JobState.failed ∧ j2.error = some "llm down" ∧
      ∀ p ∈ files_to_remove "j",
        p ∉ (run_podcast_job collabFailScript (fun _ => false) "j" wRun 0 9).fs :=
  (c7_script_failure collabFailScript "j" wRun jobRun "llm down" 0 9
    (by decide) (by decide)).1 rfl rfl

/-- C3 counterexample: cancellation delivered during the speech-synthesis
stage (after the script artifact is written, with a fault-free file system)
finalizes the job as Cancelled while the script file is still on disk — the
claim requires the cancellation path to have attempted artifact deletion
before the state is finalized, which would have removed it. -/

theorem c3_counterexample :
    ((getJob (run_podcast_job collabCancelTTS (fun _ => false) "j" wRun 0 9).q "j").map
      (fun j2 => j2.status)) = some JobState.cancelled ∧
    ((run_podcast_job collabCancelTTS (fun _ => false) "j" wRun 0 9).fs.contains
      (scriptPath "j")) = true := by
  decide

/-- C3 amended: only the failure path attempts best-effort artifact cleanup
before the job is finalized: a stage exception leads to deletion of all four
job-scoped artifact paths (under a fault-free file system), and an error
raised during that cleanup is swallowed, so for every fault pattern the job
still ends Failed with the original stage error (cleanup never masks the
outcome); the cancellation path performs no artifact cleanup — the job is
finalized Cancelled with the already-written script artifact still on
disk. -/

theorem c3_cleanup_on_failure_not_cancel (c : Collaborators) (id : String)
    (s : WorldState) (j : Job) (sr : ScriptResult) (t0 t1 : Int)
    (h : getJob s.q id = some j)
    (hsrc : c.get_diverse_sources = Except.ok [])
    (hscript : c.generate_script_from_text (fallback_content j.topic j.description)
      = Except.ok sr) :
    (∀ (fault : String → Bool) (m : String), m ≠ "" →
      c.generate_speech sr.script = Except.error (PyErr.exc m) →
      ∃ j2, getJob (run_podcast_job c fault id s t0 t1).q id = some j2 ∧
        j2.status = JobState.failed ∧ j2.error = some m) ∧
    (∀ m : String, c.generate_speech sr.script = Except.error (PyErr.exc m) →
      ∀ p ∈ files_to_remove id,
        p ∉ (run_podcast_job c (fun _ => false) id s t0 t1).fs) ∧
    (c.generate_speech sr.script = Except.error PyErr.cancelled →
      ∀ fault : String → Bool,
      ∃ j2, getJob (run_podcast_job c fault id s t0 t1).q id = some j2 ∧
        j2.status = JobState.cancelled ∧
        scriptPath id ∈ (run_podcast_job c fault id s t0 t1).fs) := by
  have h1 : ∃ j1, getJob (emitW s id 0 "Starting podcast generation..." t1).q id
      = some j1 ∧ j1.topic = j.topic ∧ j1.description = j.description := by
    rw [getJob_emitW_self, h]
    exact ⟨_, rfl, rfl, rfl⟩
  obtain ⟨j1, h1, hjt, hjd⟩ := h1
  have hscript1 : c.generate_script_from_text
      (fallback_content j1.topic j1.description) = Except.ok sr := by
    rw [hjt, hjd]
    exact hscript
  refine ⟨?_, ?_, ?_⟩
  · intro fault m hm hspeech
    obtain ⟨s2, hw, ⟨jx, hjx⟩, _hfs⟩ :=
      worker_speech_exc_fallback c fault id
        (emitW s id 0 "Starting podcast generation..." t1) j1 sr m t0 t1
        h1 hsrc hscript1 hspeech
    obtain ⟨j2, hj2, hst, herr2, _hres, _hcomp, _hfsall, _htr⟩ :=
      run_job_returns_error
        (fun s1 => generate_podcast_worker c fault id s1 t0 t1)
        id s t1 j jx (errResult id m t0) s2 h hw hjx rfl
    have herr : pyOrStr (errResult id m t0).error "Podcast generation failed"
        = m := by
      simp [errResult, pyOrStr, hm]
    exact ⟨j2, hj2, hst, by rw [herr2, herr]⟩
  · intro m hspeech p hp
    obtain ⟨s2, hw, ⟨jx, hjx⟩, hfs⟩ :=
      worker_speech_exc_fallback c (fun _ => false) id
        (emitW s id 0 "Starting podcast generation..." t1) j1 sr m t0 t1
        h1 hsrc hscript1 hspeech
    obtain ⟨j2, hj2, hst, herr2, _hres, _hcomp, hfsall, _htr⟩ :=
      run_job_returns_error
        (fun s1 => generate_podcast_worker c (fun _ => false) id s1 t0 t1)
        id s t1 j jx (errResult id m t0) s2 h hw hjx rfl
    rw [show (run_podcast_job c (fun _ => false) id s t0 t1).fs
        = s2.fs from hfsall, hfs]
    apply cleanup_temp_no_add
    exact cleanup_loop_removes (files_to_remove id) _ p hp
  · intro hspeech fault
    obtain ⟨s2, hw, ⟨jx, hjx⟩, hfs⟩ :=
      worker_speech_cancel_fallback c fault id
        (emitW s id 0 "Starting podcast generation..." t1) j1 sr t0 t1
        h1 hsrc hscript1 hspeech
    obtain ⟨j2, hj2, hst, _hres, _herr, hfsall, _htr⟩ :=
      run_job_cancelled_out
        (fun s1 => generate_podcast_worker c fault id s1 t0 t1)
        id s t1 j jx s2 h hw hjx
    refine ⟨j2, hj2, hst, ?_⟩
    rw [show (run_podcast_job c fault id s t0 t1).fs = s2.fs from hfsall, hfs]
    exact mem_fsWrite_of_mem _ _ _ (mem_fsWrite_self _ _)

/-- C3 amended witness: the failing speech collaborator on the concrete
running store, for the fault-free file system. -/

theorem c3_cleanup_on_failure_not_cancel_witness :
    ∃ j2, getJob (run_podcast_job collabFailTTS (fun _ => false) "j" wRun 0 9).q "j"
        = some j2 ∧
      j2.status = JobState.failed ∧ j2.error = some "tts down" :=
  (c3_cleanup_on_failure_not_cancel collabFailTTS "j" wRun jobRun
    { script := "hello world", word_count := 2 } 0 9 (by decide) rfl rfl).1
    (fun _ => false) "tts down" (by decide) rfl

theorem chainJoin (a mm b : Nat) (l1 l2 : List Nat)
    (h1 : List.Chain' (· ≤ ·) (a :: (l1 ++ [mm])))
    (h2 : List.Chain' (· ≤ ·) (mm :: (l2 ++ [b]))) :
    List.Chain' (· ≤ ·) (a :: ((l1 ++ l2) ++ [b])) := by
  induction l1 generalizing a with
  | nil =>
      have ham : a ≤ mm := by simpa using h1
      cases l2 with
      | nil =>
          have hmb : mm ≤ b := by simpa using h2
          simpa using List.chain'_pair.mpr (le_trans ham hmb)
      | cons c t =>
          have h2' := List.chain'_cons.mp (by simpa using h2)
          simp only [List.nil_append, List.cons_append]
          exact List.chain'_cons.mpr ⟨le_trans ham h2'.1, by simpa using h2'.2⟩
  | cons c t ih =>
      have h1' := List.chain'_cons.mp (by simpa using h1)
      simp only [List.cons_append]
      exact List.chain'_cons.mpr ⟨h1'.1, by simpa using ih c (by simpa using h1'.2)⟩

theorem Step.refl2 (a b : Nat) (id : String) (s : WorldState) (hab : a ≤ b) :
    Step a b id s s :=
  ⟨⟨[], by simp, by simpa [List.chain'_pair] using hab⟩, fun hx => hx⟩

theorem Step.relax (a p b : Nat) (id : String) (s X : WorldState)
    (h : Step a p id s X) (hpb : p ≤ b) : Step a b id s X := by
  obtain ⟨⟨L, ht, hc⟩, hg⟩ := h
  refine ⟨⟨L, ht, ?_⟩, hg⟩
  have := chainJoin a p b (L.map Prod.fst) [] hc
    (by simpa [List.chain'_pair] using hpb)
  simpa using this

theorem Step.trans2 (a mm b : Nat) (id : String) (s1 s2 s3 : WorldState)
    (h1 : Step a mm id s1 s2) (h2 : Step mm b id s2 s3) :
    Step a b id s1 s3 := by
  obtain ⟨⟨L1, ht1, hc1⟩, hg1⟩ := h1
  obtain ⟨⟨L2, ht2, hc2⟩, hg2⟩ := h2
  refine ⟨⟨L1 ++ L2, ?_, ?_⟩, fun hx => hg2 (hg1 hx)⟩
  · rw [ht2, ht1, List.append_assoc]
  · have := chainJoin a mm b (L1.map Prod.fst) (L2.map Prod.fst) hc1 hc2
    simpa [List.map_append] using this

theorem Step.emit_snoc (a p p2 : Nat) (id : String) (s X : WorldState)
    (m : String) (t : Int) (h : Step a p id s X) (hp : p ≤ p2) :
    Step a p2 id s (emitW X id p2 m t) := by
  obtain ⟨⟨L, ht, hc⟩, hg⟩ := h
  refine ⟨⟨L ++ [(p2, m)], ?_, ?_⟩, ?_⟩
  · rw [emitW_trace, ht, List.append_assoc]
  · have := chainJoin a p p2 (L.map Prod.fst) [p2] hc
      (by simp [List.chain'_cons, List.chain'_pair, hp])
    simpa [List.map_append] using this
  · intro hx
    have hs := hg hx
    rw [getJob_emitW_self]
    cases he : getJob X.q id with
    | none => rw [he] at hs; cases hs
    | some jv => simp

theorem Step.cast (a p : Nat) (id : String) (s X Y : WorldState)
    (ht : Y.trace = X.trace) (hq : Y.q = X.q) (h : Step a p id s X) :
    Step a p id s Y := by
  obtain ⟨⟨L, htr, hc⟩, hg⟩ := h
  exact ⟨⟨L, by rw [ht, htr], hc⟩, fun hx => by rw [hq]; exact hg hx⟩

theorem Step.err_snoc (a p b : Nat) (id : String) (s X : WorldState)
    (fault : String → Bool) (e : PyErr) (t0 : Int) (tmp : List String)
    (h : Step a p id s X) (hb : p ≤ b) :
    Step a b id s ((worker_on_err fault id e t0 tmp X).2) := by
  have h2 := Step.relax a p b id s X h hb
  cases e with
  | exc m => exact Step.cast a b id s X _ rfl rfl h2
  | cancelled => exact Step.cast a b id s X _ rfl rfl h2

theorem worker_on_err_wout (fault : String → Bool) (id : String) (e : PyErr)
    (t0 : Int) (tmp : List String) (s : WorldState) :
    WOut ((worker_on_err fault id e t0 tmp s).1) := by
  cases e with
  | exc m => exact Or.inl ⟨_, rfl⟩
  | cancelled => exact Or.inr rfl

theorem Step.fsW (a p : Nat) (id : String) (s X : WorldState) (P : String)
    (h : Step a p id s X) : Step a p id s { X with fs := fsWrite X.fs P } :=
  Step.cast a p id s X _ rfl rfl h

theorem Step.fsClean (a p : Nat) (id : String) (s X : WorldState)
    (fault : String → Bool) (tmp : List String) (h : Step a p id s X) :
    Step a p id s { X with fs := cleanup_temp_files fault tmp X.fs } :=
  Step.cast a p id s X _ rfl rfl h

theorem worker_from_script_step (c : Collaborators) (fault : String → Bool)
    (id : String) (job : Job) (sources : List Source)
    (content : String ⊕ List ExtractedContent) (s : WorldState) (t0 t1 : Int) :
    Step 30 100 id s ((worker_from_script c fault id job sources content s t0 t1).2) ∧
    WOut ((worker_from_script c fault id job sources content s t0 t1).1) := by
  unfold worker_from_script
  rcases content with txt | ex
  all_goals simp only []
  case inl =>
      have s35 := Step.emit_snoc 30 30 35 id s s
        ("Extracted content from " ++ "fallback content") t1
        (Step.refl2 30 30 id s (le_refl 30)) (by decide)
      have s50 := Step.emit_snoc 30 35 50 id s _
        "Generating podcast script using AI..." t1 s35 (by decide)
      rcases hsc : c.generate_script_from_text txt with e | sr
      all_goals simp only [hsc]
      · exact ⟨Step.err_snoc 30 50 100 id s _ fault e t0 [] s50 (by decide),
          worker_on_err_wout fault id e t0 [] _⟩
      · have s65 := Step.emit_snoc 30 50 65 id s _
          "Script generated successfully" t1 s50 (by decide)
        have s70 := Step.emit_snoc 30 65 70 id s _
          "Converting script to speech..." t1 s65 (by decide)
        have sW1 := Step.fsW 30 70 id s _ (scriptPath id) s70
        have sW2 := Step.fsW 30 70 id s _ (speechPath id) sW1
        rcases hsp : c.generate_speech sr.script with e | tts
        all_goals simp only [hsp]
        · exact ⟨Step.err_snoc 30 70 100 id s _ fault e t0 _ sW2 (by decide),
            worker_on_err_wout fault id e t0 _ _⟩
        · have s80 := Step.emit_snoc 30 70 80 id s _
            "Speech generation completed" t1 sW2 (by decide)
          have s85 := Step.emit_snoc 30 80 85 id s _
            "Processing and enhancing audio..." t1 s80 (by decide)
          have sW3 := Step.fsW 30 85 id s _ (finalPath id) s85
          rcases hau : c.process_audio with e | au
          all_goals simp only [hau]
          · exact ⟨Step.err_snoc 30 85 100 id s _ fault e t0 _ sW3 (by decide),
              worker_on_err_wout fault id e t0 _ _⟩
          · have s95 := Step.emit_snoc 30 85 95 id s _
              "Audio processing completed" t1 sW3 (by decide)
            have s98 := Step.emit_snoc 30 95 98 id s _
              "Generating show notes..." t1 s95 (by decide)
            have sW4 := Step.fsW 30 98 id s _ (notesPath id) s98
            have s100 := Step.emit_snoc 30 98 100 id s _
              "Podcast generation completed!" t1 sW4 (by decide)
            have sW5 := Step.fsClean 30 100 id s _ fault [speechPath id] s100
            exact ⟨sW5, Or.inl ⟨_, rfl⟩⟩
  case inr =>
      have s35 := Step.emit_snoc 30 30 35 id s s
        ("Extracted content from " ++ toString ex.length ++ " sources") t1
        (Step.refl2 30 30 id s (le_refl 30)) (by decide)
      have s50 := Step.emit_snoc 30 35 50 id s _
        "Generating podcast script using AI..." t1 s35 (by decide)
      rcases hsc : c.generate_script ex with e | sr
      all_goals simp only [hsc]
      · exact ⟨Step.err_snoc 30 50 100 id s _ fault e t0 [] s50 (by decide),
          worker_on_err_wout fault id e t0 [] _⟩
      · have s65 := Step.emit_snoc 30 50 65 id s _
          "Script generated successfully" t1 s50 (by decide)
        have s70 := Step.emit_snoc 30 65 70 id s _
          "Converting script to speech..." t1 s65 (by decide)
        have sW1 := Step.fsW 30 70 id s _ (scriptPath id) s70
        have sW2 := Step.fsW 30 70 id s _ (speechPath id) sW1
        rcases hsp : c.generate_speech sr.script with e | tts
        all_goals simp only [hsp]
        · exact ⟨Step.err_snoc 30 70 100 id s _ fault e t0 _ sW2 (by decide),
            worker_on_err_wout fault id e t0 _ _⟩
        · have s80 := Step.emit_snoc 30 70 80 id s _
            "Speech generation completed" t1 sW2 (by decide)
          have s85 := Step.emit_snoc 30 80 85 id s _
            "Processing and enhancing audio..." t1 s80 (by decide)
          have sW3 := Step.fsW 30 85 id s _ (finalPath id) s85
          rcases hau : c.process_audio with e | au
          all_goals simp only [hau]
          · exact ⟨Step.err_snoc 30 85 100 id s _ fault e t0 _ sW3 (by decide),
              worker_on_err_wout fault id e t0 _ _⟩
          · have s95 := Step.emit_snoc 30 85 95 id s _
              "Audio processing completed" t1 sW3 (by decide)
            have s98 := Step.emit_snoc 30 95 98 id s _
              "Generating show notes..." t1 s95 (by decide)
            have sW4 := Step.fsW 30 98 id s _ (notesPath id) s98
            have s100 := Step.emit_snoc 30 98 100 id s _
              "Podcast generation completed!" t1 sW4 (by decide)
            have sW5 := Step.fsClean 30 100 id s _ fault [speechPath id] s100
            exact ⟨sW5, Or.inl ⟨_, rfl⟩⟩

theorem generate_podcast_worker_step (c : Collaborators)
    (fault : String → Bool) (id : String) (s : WorldState) (t0 t1 : Int) :
    Step 0 100 id s ((generate_podcast_worker c fault id s t0 t1).2) ∧
    WOut ((generate_podcast_worker c fault id s t0 t1).1) := by
  unfold generate_podcast_worker
  cases h : getJob s.q id with
  | none =>
      exact ⟨Step.err_snoc 0 0 100 id s s fault _ t0 []
          (Step.refl2 0 0 id s (le_refl 0)) (by decide),
        worker_on_err_wout fault id _ t0 [] s⟩
  | some j =>
      have s0e := Step.emit_snoc 0 0 0 id s s
        "Searching the web for diverse sources..." t1
        (Step.refl2 0 0 id s (le_refl 0)) (le_refl 0)
      rcases hsrc : c.get_diverse_sources with e | srcs
      all_goals simp only [hsrc]
      · exact ⟨Step.err_snoc 0 0 100 id s _ fault e t0 [] s0e (by decide),
          worker_on_err_wout fault id e t0 [] _⟩
      · cases hempty : srcs.isEmpty with
        | true =>
            simp only [hempty, if_true]
            have s15 := Step.emit_snoc 0 0 15 id s _
              "No web sources found, generating content from topic..." t1
              s0e (by decide)
            have s30 := Step.emit_snoc 0 15 30 id s _
              "Generated fallback content successfully" t1 s15 (by decide)
            obtain ⟨hstep, hwout⟩ := worker_from_script_step c fault id j srcs
              (Sum.inl (fallback_content j.topic j.description)) _ t0 t1
            exact ⟨Step.trans2 0 30 100 id s _ _ s30 hstep, hwout⟩
        | false =>
            simp only [hempty, Bool.false_eq_true, if_false]
            have s15 := Step.emit_snoc 0 0 15 id s _
              ("Found " ++ toString srcs.length ++ " relevant sources") t1
              s0e (by decide)
            have s20 := Step.emit_snoc 0 15 20 id s _
              "Extracting and cleaning content from sources..." t1 s15 (by decide)
            rcases hex : c.extract_content_from_sources srcs with e | ex
            all_goals simp only [hex]
            · exact ⟨Step.err_snoc 0 20 100 id s _ fault e t0 [] s20 (by decide),
                worker_on_err_wout fault id e t0 [] _⟩
            · have s30 := Step.emit_snoc 0 20 30 id s _
                "Content extraction completed" t1 s20 (by decide)
              obtain ⟨hstep, hwout⟩ := worker_from_script_step c fault id j srcs
                (Sum.inr ex) _ t0 t1
              exact ⟨Step.trans2 0 30 100 id s _ _ s30 hstep, hwout⟩

theorem run_job_returns_trace
    (worker : WorldState → Except PyErr PodcastResult × WorldState)
    (id : String) (s : WorldState) (now : Int) (j jx : Job)
    (r : PodcastResult) (s2 : WorldState)
    (h : getJob s.q id = some j)
    (hw : worker (emitW s id 0 "Starting podcast generation..." now)
      = (Except.ok r, s2))
    (h2 : getJob s2.q id = some jx) :
    (run_job worker id s now).trace
      = s2.trace ++ [(100, "Podcast generation completed!")] := by
  unfold run_job
  rw [h]
  simp only []
  rw [hw]
  simp only [h2]
  by_cases hrs : r.status = "error" <;> simp [hrs, emitW_trace]

/-- C5: across any single background run of the pipeline, the percents of
the job's successive progress emissions — which are what status polling
observes as the job's progress snapshots — form a non-decreasing
sequence. -/

theorem c5_percent_monotone (c : Collaborators) (fault : String → Bool)
    (id : String) (s : WorldState) (t0 t1 : Int) (htr : s.trace = []) :
    List.Chain' (· ≤ ·)
      (((run_podcast_job c fault id s t0 t1).trace).map Prod.fst) := by
  unfold run_podcast_job
  cases h : getJob s.q id with
  | none =>
      rw [(run_job_missing _ id s t1 h).1, htr]
      simp
  | some j =>
      set sE := emitW s id 0 "Starting podcast generation..." t1 with hsE
      obtain ⟨⟨L, htrace, hchain⟩, hsome⟩ :=
        (generate_podcast_worker_step c fault id sE t0 t1).1
      have hsEsome : (getJob sE.q id).isSome = true := by
        rw [hsE, getJob_emitW_self, h]
        rfl
      obtain ⟨jx, hjx⟩ := Option.isSome_iff_exists.mp (hsome hsEsome)
      have hsEtr : sE.trace = [(0, "Starting podcast generation...")] := by
        rw [hsE, emitW_trace, htr]
        rfl
      obtain ⟨r, hout⟩ | hout := (generate_podcast_worker_step c fault id sE t0 t1).2
      · have hw : generate_podcast_worker c fault id sE t0 t1
            = (Except.ok r, (generate_podcast_worker c fault id sE t0 t1).2) := by
          rw [← hout]
        have htrace2 := run_job_returns_trace
          (fun sx => generate_podcast_worker c fault id sx t0 t1) id s t1 j jx r _
          h (by rw [← hsE]; exact hw) hjx
        rw [htrace2, htrace, hsEtr]
        simpa using hchain
      · have hw : generate_podcast_worker c fault id sE t0 t1
            = (Except.error PyErr.cancelled,
               (generate_podcast_worker c fault id sE t0 t1).2) := by
          rw [← hout]
        have htrace2 := run_job_error_trace
          (fun sx => generate_podcast_worker c fault id sx t0 t1) id s t1 j
          PyErr.cancelled _ h (by rw [← hsE]; exact hw)
        rw [htrace2, htrace, hsEtr]
        have hsub : List.Sublist (0 :: L.map Prod.fst)
            (0 :: (L.map Prod.fst ++ [100])) :=
          List.Sublist.cons₂ _ (List.sublist_append_left _ _)
        have hc2 := List.Chain'.sublist hchain hsub
        simpa using hc2

/-- C5 witness: a concrete run (source discovery raising) on the running
store; its emission trace is sorted. -/

theorem c5_percent_monotone_witness :
    List.Chain' (· ≤ ·)
      (((run_podcast_job collabNoSearch (fun _ => false) "j" wRun 0 9).trace).map
        Prod.fst) :=
  c5_percent_monotone collabNoSearch (fun _ => false) "j" wRun 0 9 rfl

end PodcastGen

